import Mathlib

/-!
Verification development for the feature-engineering script
src/run/prepare_data.py of the repository
kaggle-child-mind-institute-detect-sleep-states.

The script's floating-point values are embedded as real numbers, integer
values as Nat/Int, Python dictionaries as association lists, and the
filesystem behaviour of the driver as an explicit event trace.
-/

noncomputable section

/-! ## Fixed constants (prepare_data.py lines 44-47) -/

/-- Source constant ANGLEZ_MEAN (line 44). -/
def ANGLEZ_MEAN : ℝ := -8.810476

/-- Source constant ANGLEZ_STD (line 45). -/
def ANGLEZ_STD : ℝ := 35.521877

/-- Source constant ENMO_MEAN (line 46). -/
def ENMO_MEAN : ℝ := 0.041315

/-- Source constant ENMO_STD (line 47). -/
def ENMO_STD : ℝ := 0.101829

/-! ## Mixture-of-Gaussians signal tables (prepare_data.py lines 52-82) -/

/-- Parameter record mirroring the Python parameter dictionaries
onset_features and awake_features (lines 52-66): keys w1, mu1, sigma1,
mu2, sigma2. -/
structure MixtureParams where
  w1 : ℝ
  mu1 : ℝ
  sigma1 : ℝ
  mu2 : ℝ
  sigma2 : ℝ

/-- Source dictionary onset_features (lines 52-58). -/
def onset_features : MixtureParams :=
  ⟨0.97292814, 2.12861738, 1.699476, 22.7643724, 0.42483832⟩

/-- Source dictionary awake_features (lines 60-66). -/
def awake_features : MixtureParams :=
  ⟨0.47799486, 10.89539674, 0.87151052, 11.82689931, 2.06792452⟩

/-- Cubic-polynomial coefficient list, source line 69 (constant, linear,
quadratic, cubic). -/
def coefficients : List ℝ :=
  [0.7498337722857453, -0.29120336781669365, 0.0325499456141388, -0.000865744935362603]

/-- Source function poly_fit (lines 72-73):
coefficients[0] + coefficients[1]*time + coefficients[2]*time**2 +
coefficients[3]*time**3.  Python list indexing is embedded as List.getD
with an irrelevant default (all four indices are in range). -/
def poly_fit (time : ℝ) : ℝ :=
  coefficients.getD 0 0 + coefficients.getD 1 0 * time
    + coefficients.getD 2 0 * time ^ 2 + coefficients.getD 3 0 * time ^ 3

/-- scipy.stats.norm.pdf(x, loc, scale): the normal density
exp(-(((x-loc)/scale)^2)/2) / (scale * sqrt(2*pi)), the library function
called by calc_mixture_gaussian (line 76). -/
def norm_pdf (x loc scale : ℝ) : ℝ :=
  Real.exp (-(((x - loc) / scale) ^ 2) / 2) / (scale * Real.sqrt (2 * Real.pi))

/-- Source function calc_mixture_gaussian (lines 75-76):
w1 * norm.pdf(time, mu1, sigma1) + (1 - w1) * norm.pdf(time, mu2, sigma2). -/
def calc_mixture_gaussian (time w1 mu1 sigma1 mu2 sigma2 : ℝ) : ℝ :=
  w1 * norm_pdf time mu1 sigma1 + (1 - w1) * norm_pdf time mu2 sigma2

/-- The Python dict comprehension pattern of lines 80-82:
given a value function f, build the dictionary with keys
np.arange(0, 240) = 0..239 and value f(key) at each key, embedded as an
association list in key order. -/
def buildSignalDict (f : ℕ → ℝ) : List (ℕ × ℝ) :=
  (List.range 240).map (fun hour => (hour, f hour))

/-- Source dictionary signal_awake_dict (line 80):
key hour maps to calc_mixture_gaussian(hour / 10, **awake_features). -/
def signal_awake_dict : List (ℕ × ℝ) :=
  buildSignalDict (fun hour =>
    calc_mixture_gaussian ((hour : ℝ) / 10) awake_features.w1 awake_features.mu1
      awake_features.sigma1 awake_features.mu2 awake_features.sigma2)

/-- Source dictionary signal_onset_dict (line 81):
key hour maps to calc_mixture_gaussian(hour / 10, **onset_features). -/
def signal_onset_dict : List (ℕ × ℝ) :=
  buildSignalDict (fun hour =>
    calc_mixture_gaussian ((hour : ℝ) / 10) onset_features.w1 onset_features.mu1
      onset_features.sigma1 onset_features.mu2 onset_features.sigma2)

/-- Source dictionary signal_poly_dict (line 82):
key hour maps to poly_fit(hour / 10). -/
def signal_poly_dict : List (ℕ × ℝ) :=
  buildSignalDict (fun hour => poly_fit ((hour : ℝ) / 10))

/-! ## Spec-side formulas (for refinement comparison).
These two definitions follow the words of the specification (section 3),
not the source, and are compared with the source-derived tables. -/

/-- Modelled from the spec, section 3: Gaussian_pdf(t, mu, sigma) =
exp(-(t-mu)^2 / (2*sigma^2)) / (sigma * sqrt(2*pi)). -/
def gaussianPdfSpec (t mu sigma : ℝ) : ℝ :=
  Real.exp (-(t - mu) ^ 2 / (2 * sigma ^ 2)) / (sigma * Real.sqrt (2 * Real.pi))

/-- Modelled from the spec, section 3: mixture density
f(t) = w1 * Gaussian_pdf(t, mu1, sigma1) + (1 - w1) * Gaussian_pdf(t, mu2, sigma2). -/
def mixtureDensitySpec (p : MixtureParams) (t : ℝ) : ℝ :=
  p.w1 * gaussianPdfSpec t p.mu1 p.sigma1 + (1 - p.w1) * gaussianPdfSpec t p.mu2 p.sigma2

/-! ## Generic lookup facts for the dictionaries -/

/-- Lookup in a dictionary built over the key range s, s+1, ..., s+n-1
returns the value function at any key in that range. -/
theorem lookup_range_map (f : ℕ → ℝ) :
    ∀ (n s b : ℕ), s ≤ b → b < s + n →
      List.lookup b ((List.range' s n).map (fun i => (i, f i))) = some (f b) := by
  intro n
  induction n with
  | zero => intro s b h1 h2; omega
  | succ k ih =>
    intro s b h1 h2
    rw [List.range'_succ, List.map_cons]
    by_cases hb : b = s
    · subst hb
      simp [List.lookup]
    · have hbe : (b == s) = false := by
        simp [hb]
      rw [show List.lookup b ((s, f s) :: (List.range' (s + 1) k).map (fun i => (i, f i)))
            = List.lookup b ((List.range' (s + 1) k).map (fun i => (i, f i))) from by
          simp [List.lookup, hbe]]
      exact ih (s + 1) b (by omega) (by omega)

/-- Lookup in buildSignalDict f at any key below 240 yields f at that key. -/
theorem lookup_buildSignalDict (f : ℕ → ℝ) (b : ℕ) (hb : b < 240) :
    List.lookup b (buildSignalDict f) = some (f b) := by
  unfold buildSignalDict
  rw [List.range_eq_range']
  exact lookup_range_map f 240 0 b (Nat.zero_le b) (by omega)

/-- scipy's norm.pdf agrees with the spec's Gaussian_pdf formula: the
exponent -(((x-loc)/scale)^2)/2 equals -(x-loc)^2/(2*scale^2). -/
theorem norm_pdf_eq_gaussianPdfSpec (x loc scale : ℝ) :
    norm_pdf x loc scale = gaussianPdfSpec x loc scale := by
  unfold norm_pdf gaussianPdfSpec
  congr 1
  congr 1
  rw [div_pow]
  rw [neg_div, neg_div, neg_inj, div_div]
  ring_nf

/-! ## Claims C2, C3, C5: the three lookup tables -/

/-- C2: for every integer b in [0, 239], the built table values
signal_awake[b] and signal_onset[b] equal the two-component Gaussian
mixture density of the spec evaluated at t = b/10, with the awake
parameters w1=0.47799486, (mu1=10.89539674, sigma1=0.87151052),
(mu2=11.82689931, sigma2=2.06792452) and the onset parameters
w1=0.97292814, (mu1=2.12861738, sigma1=1.699476),
(mu2=22.7643724, sigma2=0.42483832). -/
theorem signal_tables_match_mixture_spec (b : ℕ) (hb : b ≤ 239) :
    List.lookup b signal_awake_dict
      = some (mixtureDensitySpec ⟨0.47799486, 10.89539674, 0.87151052, 11.82689931, 2.06792452⟩
          ((b : ℝ) / 10))
    ∧ List.lookup b signal_onset_dict
      = some (mixtureDensitySpec ⟨0.97292814, 2.12861738, 1.699476, 22.7643724, 0.42483832⟩
          ((b : ℝ) / 10)) := by
  constructor
  · rw [signal_awake_dict, lookup_buildSignalDict _ b (by omega)]
    rw [calc_mixture_gaussian, norm_pdf_eq_gaussianPdfSpec, norm_pdf_eq_gaussianPdfSpec]
    rfl
  · rw [signal_onset_dict, lookup_buildSignalDict _ b (by omega)]
    rw [calc_mixture_gaussian, norm_pdf_eq_gaussianPdfSpec, norm_pdf_eq_gaussianPdfSpec]
    rfl

/-- Witness for C2 at the concrete bucket b = 0. -/
theorem signal_tables_match_mixture_spec_witness :
    (0 : ℕ) ≤ 239
    ∧ (List.lookup 0 signal_awake_dict
        = some (mixtureDensitySpec ⟨0.47799486, 10.89539674, 0.87151052, 11.82689931, 2.06792452⟩
            ((0 : ℕ) / 10 : ℝ))
      ∧ List.lookup 0 signal_onset_dict
        = some (mixtureDensitySpec ⟨0.97292814, 2.12861738, 1.699476, 22.7643724, 0.42483832⟩
            ((0 : ℕ) / 10 : ℝ))) :=
  ⟨by decide, signal_tables_match_mixture_spec 0 (by decide)⟩

/-- C3: for every integer b in [0, 239], the built table value
signal_poly[b] equals the cubic polynomial
c0 + c1*t + c2*t^2 + c3*t^3 at t = b/10 with
c0=0.7498337722857453, c1=-0.29120336781669365,
c2=0.0325499456141388, c3=-0.000865744935362603. -/
theorem signal_poly_matches_cubic_spec (b : ℕ) (hb : b ≤ 239) :
    List.lookup b signal_poly_dict
      = some ((0.7498337722857453 : ℝ)
          + (-0.29120336781669365) * ((b : ℝ) / 10)
          + 0.0325499456141388 * ((b : ℝ) / 10) ^ 2
          + (-0.000865744935362603) * ((b : ℝ) / 10) ^ 3) := by
  rw [signal_poly_dict, lookup_buildSignalDict _ b (by omega)]
  rw [poly_fit, coefficients]
  norm_num

/-- Witness for C3 at the concrete bucket b = 239. -/
theorem signal_poly_matches_cubic_spec_witness :
    (239 : ℕ) ≤ 239
    ∧ List.lookup 239 signal_poly_dict
      = some ((0.7498337722857453 : ℝ)
          + (-0.29120336781669365) * ((239 : ℕ) / 10 : ℝ)
          + 0.0325499456141388 * ((239 : ℕ) / 10 : ℝ) ^ 2
          + (-0.000865744935362603) * ((239 : ℕ) / 10 : ℝ) ^ 3) :=
  ⟨by decide, signal_poly_matches_cubic_spec 239 (by decide)⟩

/-- C5: for every hour h in [0, 23] and minute m in [0, 59], the Time
Bucket h*10 + floor(m/6) lies in [0, 239]; and each of the three lookup
tables contains an entry for every integer key from 0 to 239 inclusive,
so a feature-assembly lookup never hits a missing key. -/
theorem time_bucket_in_range_and_tables_total :
    (∀ h m : ℕ, h ≤ 23 → m ≤ 59 → h * 10 + m / 6 ≤ 239)
    ∧ (∀ b : ℕ, b ≤ 239 →
        (List.lookup b signal_awake_dict).isSome
        ∧ (List.lookup b signal_onset_dict).isSome
        ∧ (List.lookup b signal_poly_dict).isSome) := by
  constructor
  · intro h m hh hm
    omega
  · intro b hb
    refine ⟨?_, ?_, ?_⟩
    · rw [signal_awake_dict, lookup_buildSignalDict _ b (by omega)]; rfl
    · rw [signal_onset_dict, lookup_buildSignalDict _ b (by omega)]; rfl
    · rw [signal_poly_dict, lookup_buildSignalDict _ b (by omega)]; rfl

/-- Witness for C5: the extreme bucket 23*10 + 59/6 = 239 is in range and
key 239 is present in the awake table. -/
theorem time_bucket_in_range_and_tables_total_witness :
    23 * 10 + 59 / 6 ≤ 239 ∧ (List.lookup 239 signal_awake_dict).isSome :=
  ⟨time_bucket_in_range_and_tables_total.1 23 59 (by decide) (by decide),
   (time_bucket_in_range_and_tables_total.2 239 (by decide)).1⟩

/-! ## Circular time encoder (prepare_data.py lines 85-90) -/

/-- Source function to_coord (lines 85-90), elementwise on an integer
column value x: rad = 2 * pi * (x % max_) / max_, returning
(sin(rad), cos(rad)).  The polars/Python % on integers is the floored
(mathematical) modulo, embedded as Int.emod. -/
def to_coord (x max_ : ℤ) : ℝ × ℝ :=
  (Real.sin (2 * Real.pi * ((x % max_ : ℤ) : ℝ) / (max_ : ℝ)),
   Real.cos (2 * Real.pi * ((x % max_ : ℤ) : ℝ) / (max_ : ℝ)))

/-- C4: for every integer x and positive integer period, the circular
time encoder returns (sin(rad), cos(rad)) with
rad = 2*pi*(x mod period)/period, where the modulo is the mathematical
one: its value lies in [0, period), including for negative x. -/
theorem to_coord_spec (x p : ℤ) (hp : 0 < p) :
    to_coord x p
      = (Real.sin (2 * Real.pi * ((x % p : ℤ) : ℝ) / (p : ℝ)),
         Real.cos (2 * Real.pi * ((x % p : ℤ) : ℝ) / (p : ℝ)))
    ∧ 0 ≤ x % p ∧ x % p < p := by
  refine ⟨rfl, Int.emod_nonneg x (by omega), Int.emod_lt_of_pos x hp⟩

/-- Witness for C4 at the negative input x = -5, period 24. -/
theorem to_coord_spec_witness :
    (0 : ℤ) < 24
    ∧ (to_coord (-5) 24
        = (Real.sin (2 * Real.pi * (((-5 : ℤ) % 24 : ℤ) : ℝ) / ((24 : ℤ) : ℝ)),
           Real.cos (2 * Real.pi * (((-5 : ℤ) % 24 : ℤ) : ℝ) / ((24 : ℤ) : ℝ)))
      ∧ 0 ≤ (-5 : ℤ) % 24 ∧ (-5 : ℤ) % 24 < 24) :=
  ⟨by decide, to_coord_spec (-5) 24 (by decide)⟩

/-- C10: the encoder with period 24 lands on the unit circle for every
integer x; it is periodic (x = 0 and x = 24 agree); hour 0 maps to
(0, 1) and hour 12 maps to (0, -1). -/
theorem to_coord_unit_circle_and_periodic :
    (∀ x : ℤ, (to_coord x 24).1 ^ 2 + (to_coord x 24).2 ^ 2 = 1)
    ∧ to_coord 0 24 = to_coord 24 24
    ∧ to_coord 0 24 = (0, 1)
    ∧ to_coord 12 24 = (0, -1) := by
  refine ⟨?_, ?_, ?_, ?_⟩
  · intro x
    exact Real.sin_sq_add_cos_sq _
  · show to_coord 0 24 = to_coord 24 24
    rw [to_coord, to_coord]
    norm_num
  · rw [to_coord]
    norm_num
  · rw [to_coord]
    have h12 : (((12 : ℤ) % 24 : ℤ) : ℝ) = 12 := by norm_num
    rw [h12]
    have hrad : 2 * Real.pi * (12 : ℝ) / (((24 : ℤ) : ℝ)) = Real.pi := by
      norm_num
      ring
    rw [hrad, Real.sin_pi, Real.cos_pi]

/-! ## Normalizer (prepare_data.py lines 44-47 and 163-168) -/

/-- Elementwise float subtraction on an IEEE value embedded as
Option real, where none stands for NaN: any NaN operand gives NaN. -/
def fSub : Option ℝ → Option ℝ → Option ℝ
  | some a, some b => some (a - b)
  | _, _ => none

/-- Elementwise float division, same NaN convention.  Every use in this
development divides by a nonzero literal constant, so the real-division
embedding agrees with IEEE on non-NaN operands. -/
def fDiv : Option ℝ → Option ℝ → Option ℝ
  | some a, some b => some (a / b)
  | _, _ => none

/-- The anglez normalization expression of main (line 167):
(anglez - ANGLEZ_MEAN) / ANGLEZ_STD, elementwise. -/
def normalize_anglez (a : Option ℝ) : Option ℝ :=
  fDiv (fSub a (some ANGLEZ_MEAN)) (some ANGLEZ_STD)

/-- The enmo normalization expression of main (line 168):
(enmo - ENMO_MEAN) / ENMO_STD, elementwise. -/
def normalize_enmo (e : Option ℝ) : Option ℝ :=
  fDiv (fSub e (some ENMO_MEAN)) (some ENMO_STD)

/-- C6: normalization replaces anglez by (anglez - ANGLEZ_MEAN)/ANGLEZ_STD
and enmo by (enmo - ENMO_MEAN)/ENMO_STD with the fixed constants
ANGLEZ_MEAN=-8.810476, ANGLEZ_STD=35.521877, ENMO_MEAN=0.041315,
ENMO_STD=0.101829; the constants themselves map to zero, and a NaN input
value yields a NaN output value. -/
theorem normalize_affine_zero_and_nan :
    (∀ a : ℝ, normalize_anglez (some a) = some ((a - ANGLEZ_MEAN) / ANGLEZ_STD))
    ∧ (∀ e : ℝ, normalize_enmo (some e) = some ((e - ENMO_MEAN) / ENMO_STD))
    ∧ ANGLEZ_MEAN = -8.810476 ∧ ANGLEZ_STD = 35.521877
    ∧ ENMO_MEAN = 0.041315 ∧ ENMO_STD = 0.101829
    ∧ normalize_anglez (some ANGLEZ_MEAN) = some 0
    ∧ normalize_enmo (some ENMO_MEAN) = some 0
    ∧ normalize_anglez none = none
    ∧ normalize_enmo none = none := by
  refine ⟨fun a => rfl, fun e => rfl, rfl, rfl, rfl, rfl, ?_, ?_, rfl, rfl⟩
  · show some ((ANGLEZ_MEAN - ANGLEZ_MEAN) / ANGLEZ_STD) = some (0 : ℝ)
    rw [sub_self, zero_div]
  · show some ((ENMO_MEAN - ENMO_MEAN) / ENMO_STD) = some (0 : ℝ)
    rw [sub_self, zero_div]

/-! ## Feature assembler and series exporter
(prepare_data.py lines 20-28, 97-111, 130-135, 183-190) -/

/-- Source list FEATURE_NAMES (lines 20-28). -/
def FEATURE_NAMES : List String :=
  ["anglez", "enmo", "hour_sin", "hour_cos", "signal_awake", "signal_onset", "signal_poly"]

/-- One normalized reading after timestamp parsing: the columns of the
sorted series dataframe that add_feature consumes.  anglez and enmo hold
the already-normalized values; hour and minute are the fields
dt.hour() and dt.minute() of the parsed timestamp. -/
structure Row where
  series_id : String
  anglez : ℝ
  enmo : ℝ
  hour : ℕ
  minute : ℕ

/-- The Time Bucket expression built at line 104:
timestamp.dt.hour() * 10 + timestamp.dt.minute() // 6, elementwise.
Building this polars expression (and even chaining .map onto it)
succeeds; the failure in add_feature comes later, when the Series
constructor is applied to the resulting expression object. -/
def hour_plus_minute (r : Row) : ℕ :=
  r.hour * 10 + r.minute / 6

/-- A series feature table: the series identifier together with the
named numeric columns selected by add_feature (line 111). -/
structure FeatureTable where
  series_id : String
  cols : List (String × List ℝ)

/-- A Python-level runtime error raised by a library call. -/
inductive PyError where
  | typeError (msg : String)
deriving DecidableEq

/-- The argument handed to the polars Series constructor: either a
polars expression object, or a concrete sequence of values. -/
inductive PySeriesArg where
  | expr
  | values (xs : List ℝ)

/-- The polars Series constructor pl.Series(...): it accepts concrete
value sequences but not expression objects; applied to a pl.Expr it
raises TypeError (Series constructor called with unsupported type). -/
def pySeries : PySeriesArg → Except PyError (List ℝ)
  | PySeriesArg.expr =>
      Except.error (PyError.typeError "Series constructor called with unsupported type Expr")
  | PySeriesArg.values xs => Except.ok xs

/-- Source function add_feature (lines 97-111), on the rows of one
series.  The first with_columns (lines 99-101) adds hour_sin/hour_cos
via to_coord with period 24.  The second with_columns (lines 105-109)
evaluates its arguments left to right, and each argument applies the
polars Series constructor to the expression
hour_plus_minute.map(signal_dict) - an Expr, not a value sequence (the
dict handed to Expr.map is not even callable, but the constructor
rejects the Expr first) - so the first argument, line 106, raises
TypeError and the function returns on no input.  The success
continuation records the table that the select of line 111 would have
produced from the constructed Series columns; it is unreachable because
every argument is an expression object. -/
def add_feature (sid : String) (rows : List Row) : Except PyError FeatureTable :=
  match pySeries PySeriesArg.expr, pySeries PySeriesArg.expr, pySeries PySeriesArg.expr with
  | Except.error e, _, _ => Except.error e
  | _, Except.error e, _ => Except.error e
  | _, _, Except.error e => Except.error e
  | Except.ok sa, Except.ok so, Except.ok sp =>
      Except.ok ⟨sid,
        [("anglez", rows.map Row.anglez),
         ("enmo", rows.map Row.enmo),
         ("hour_sin", rows.map (fun r => (to_coord (r.hour : ℤ) 24).1)),
         ("hour_cos", rows.map (fun r => (to_coord (r.hour : ℤ) 24).2)),
         ("signal_awake", sa),
         ("signal_onset", so),
         ("signal_poly", sp)]⟩

/-- Column extraction, df.get_column(col_name) of line 134. -/
def getColumn (df : FeatureTable) (name : String) : List ℝ :=
  (List.lookup name df.cols).getD []

/-- Source function save_each_series (lines 130-135): creates the output
directory (mkdir with parents=True, exist_ok=True) and writes, for each
name in columns in order, the file output_dir/(name ++ ".npy") holding
that column as a flat array.  The result records the created directory
and the written files as (path, contents) pairs. -/
def save_each_series (df : FeatureTable) (columns : List String) (output_dir : String) :
    String × List (String × List ℝ) :=
  (output_dir, columns.map (fun c => (output_dir ++ "/" ++ c ++ ".npy", getColumn df c)))

/-- The per-series output directory chosen by main (line 189):
processed_dir / series_id. -/
def seriesDir (processed_dir sid : String) : String :=
  processed_dir ++ "/" ++ sid

/-- C7: the claim that, for every series, the exporter writes exactly 7
feature files is the intended behaviour described by the spec, but the
code contradicts it: add_feature raises TypeError on every input - the
polars Series constructor at line 106 is applied to a polars expression
object - so no series ever yields a feature table, and save_each_series
is never reached with one. -/
theorem add_feature_raises_typeerror (sid : String) (rows : List Row) :
    add_feature sid rows
      = Except.error (PyError.typeError "Series constructor called with unsupported type Expr")
    ∧ ∀ t : FeatureTable, add_feature sid rows ≠ Except.ok t := by
  refine ⟨rfl, ?_⟩
  intro t h
  rw [show add_feature sid rows
        = Except.error (PyError.typeError "Series constructor called with unsupported type Expr")
      from rfl] at h
  exact Except.noConfusion h

/-! ## Pipeline driver (prepare_data.py lines 138-190)

The driver is modelled as an event trace: which filesystem operations
main performs, in program order, and how the run terminates.  Python
resolves the name deg_to_rad only when line 166 is executed, so the
module's top-level bindings are modelled explicitly: the run outcome of
the preprocessing step depends on whether that name is bound. -/

/-- The names bound at the top level of module src/run/prepare_data.py:
its imports (lines 1-11) and its module-level definitions.  The
definition of deg_to_rad (lines 93-94) is commented out, so that name is
absent. -/
def moduleNames : List String :=
  ["shutil", "Path", "hydra", "np", "pl", "norm", "tqdm",
   "PrepareDataConfig", "trace",
   "SERIES_SCHEMA", "FEATURE_NAMES",
   "ANGLEZ_MEAN", "ANGLEZ_STD", "ENMO_MEAN", "ENMO_STD",
   "onset_features", "awake_features", "coefficients",
   "poly_fit", "calc_mixture_gaussian",
   "new_time_units", "signal_awake_dict", "signal_onset_dict", "signal_poly_dict",
   "to_coord", "add_feature", "save_each_series", "main"]

/-- Python name resolution against the module's top-level bindings. -/
def resolveName (n : String) : Bool :=
  moduleNames.contains n

/-- Filesystem operations main can perform, in program order. -/
inductive Event where
  | checkDirExists (path : String)
  | removeDir (path : String)
  | scanInput (path : String)
  | mkdirDir (path : String)
  | writeFile (path : String)
deriving DecidableEq

/-- Whether an event creates a directory. -/
def Event.isMkdir : Event → Bool
  | .mkdirDir _ => true
  | _ => false

/-- Whether an event writes a file. -/
def Event.isWriteFile : Event → Bool
  | .writeFile _ => true
  | _ => false

/-- How a run of main terminates. -/
inductive Outcome where
  | invalidPhase
  | nameError
  | preprocessOk
deriving DecidableEq

/-- The phase output directory of main (line 140):
processed_dir / phase. -/
def phaseDir (processed_dir phase : String) : String :=
  processed_dir ++ "/" ++ phase

/-- Event trace and outcome of main (lines 139-190) as a function of the
configuration and of whether the phase output directory already exists.

Program order, from the source: line 140 computes the phase directory;
lines 143-145 check its existence and delete it when present; lines
149-160 select the input by phase, raising ValueError for an unknown
phase; lines 163-181 build the preprocessing expression, whose argument
deg_to_rad(pl.col("anglez")) (line 166) resolves the module-level name
deg_to_rad.  When that resolution fails the run dies with NameError and
the statements from line 179 on (collect, sort, group, save loop) are
never reached, so the trace ends there; the preprocessOk outcome marks
the never-taken branch in which the name would have resolved, and is not
modelled further because resolveName is proved to fail on it. -/
def mainRun (data_dir processed_dir phase : String) (dirExists : Bool) :
    List Event × Outcome :=
  let pdir := phaseDir processed_dir phase
  let pre := Event.checkDirExists pdir :: (if dirExists then [Event.removeDir pdir] else [])
  if (["train", "test"] : List String).contains phase then
    (pre ++ [Event.scanInput (data_dir ++ "/" ++ phase ++ "_series.parquet")],
     if resolveName "deg_to_rad" then Outcome.preprocessOk else Outcome.nameError)
  else if phase = "dev" then
    (pre ++ [Event.scanInput (processed_dir ++ "/" ++ phase ++ "_series.parquet")],
     if resolveName "deg_to_rad" then Outcome.preprocessOk else Outcome.nameError)
  else (pre, Outcome.invalidPhase)

/-- The module does not bind the name deg_to_rad: its only definition,
lines 93-94, is a comment. -/
theorem deg_to_rad_unbound : resolveName "deg_to_rad" = false := by
  decide

/-! ## Claims C1, C8, C9: driver behaviour -/

/-- C1: for every valid phase (train, test, or dev) and any input,
executing main ends in an unhandled NameError during preprocessing
(deg_to_rad is an unbound name), so no directory is created and no
feature file is written, although an existing phase output directory has
already been deleted by that point. -/
theorem main_valid_phase_nameerror (dd pd phase : String) (dirExists : Bool)
    (hph : phase = "train" ∨ phase = "test" ∨ phase = "dev") :
    resolveName "deg_to_rad" = false
    ∧ (mainRun dd pd phase dirExists).2 = Outcome.nameError
    ∧ (∀ e ∈ (mainRun dd pd phase dirExists).1,
        e.isMkdir = false ∧ e.isWriteFile = false)
    ∧ (dirExists = true →
        Event.removeDir (phaseDir pd phase) ∈ (mainRun dd pd phase dirExists).1) := by
  have hres := deg_to_rad_unbound
  rcases hph with h | h | h <;> subst h <;> cases dirExists <;>
    simp [mainRun, hres, Event.isMkdir, Event.isWriteFile]

/-- Witness for C1 at phase train with an existing output directory. -/
theorem main_valid_phase_nameerror_witness :
    ("train" = "train" ∨ "train" = "test" ∨ "train" = "dev")
    ∧ (resolveName "deg_to_rad" = false
      ∧ (mainRun "data" "proc" "train" true).2 = Outcome.nameError
      ∧ (∀ e ∈ (mainRun "data" "proc" "train" true).1,
          e.isMkdir = false ∧ e.isWriteFile = false)
      ∧ (true = true →
          Event.removeDir (phaseDir "proc" "train") ∈ (mainRun "data" "proc" "train" true).1)) :=
  ⟨Or.inl rfl, main_valid_phase_nameerror "data" "proc" "train" true (Or.inl rfl)⟩

/-- C8 counterexample: with the unknown phase "bogus" and an existing
phase output directory, the run does abort with the configuration error,
but its trace already contains the existence check and the deletion of
the phase output directory, so the abort does not precede all
filesystem I/O. -/
theorem main_invalid_phase_io_counterexample :
    (mainRun "data" "proc" "bogus" true).2 = Outcome.invalidPhase
    ∧ (mainRun "data" "proc" "bogus" true).1
        = [Event.checkDirExists "proc/bogus", Event.removeDir "proc/bogus"] := by
  decide

/-- C8 (amended): if the configured phase is not train, test, or dev,
the run aborts with the configuration error before any input file is
opened and before any directory is created or file written; but this
abort happens only after the phase output directory has been checked
for existence and, when present, deleted. -/
theorem main_invalid_phase_aborts_before_input (dd pd phase : String) (dirExists : Bool)
    (h1 : phase ≠ "train") (h2 : phase ≠ "test") (h3 : phase ≠ "dev") :
    (mainRun dd pd phase dirExists).2 = Outcome.invalidPhase
    ∧ (∀ e ∈ (mainRun dd pd phase dirExists).1,
        (∀ p, e ≠ Event.scanInput p) ∧ e.isMkdir = false ∧ e.isWriteFile = false)
    ∧ (mainRun dd pd phase dirExists).1
        = Event.checkDirExists (phaseDir pd phase)
          :: (if dirExists then [Event.removeDir (phaseDir pd phase)] else []) := by
  have hor : ¬(phase = "train" ∨ phase = "test") := by
    simp [h1, h2]
  cases dirExists <;>
    simp [mainRun, hor, h3, Event.isMkdir, Event.isWriteFile]

/-- Witness for the amended C8 at the unknown phase "bogus". -/
theorem main_invalid_phase_aborts_before_input_witness :
    ("bogus" ≠ "train" ∧ "bogus" ≠ "test" ∧ "bogus" ≠ "dev")
    ∧ ((mainRun "data" "proc" "bogus" true).2 = Outcome.invalidPhase
      ∧ (∀ e ∈ (mainRun "data" "proc" "bogus" true).1,
          (∀ p, e ≠ Event.scanInput p) ∧ e.isMkdir = false ∧ e.isWriteFile = false)
      ∧ (mainRun "data" "proc" "bogus" true).1
          = Event.checkDirExists (phaseDir "proc" "bogus")
            :: (if true then [Event.removeDir (phaseDir "proc" "bogus")] else [])) :=
  ⟨⟨by decide, by decide, by decide⟩,
   main_invalid_phase_aborts_before_input "data" "proc" "bogus" true
     (by decide) (by decide) (by decide)⟩

/-- C9 counterexample: in the run with phase train and an existing phase
output directory, the trace deletes the directory and then scans the
input, but contains no directory-creation event at all — the phase
directory is deleted yet never recreated before (or after) the input is
read. -/
theorem main_no_recreate_counterexample :
    (mainRun "data" "proc" "train" true).1
      = [Event.checkDirExists "proc/train", Event.removeDir "proc/train",
         Event.scanInput "data/train_series.parquet"]
    ∧ (∀ e ∈ (mainRun "data" "proc" "train" true).1, e.isMkdir = false) := by
  decide

/-- C9 (amended): at the start of every run with a valid phase, before
any input is read, an existing phase destination directory is deleted —
so no file from a previous run survives under the phase output root once
the run begins — but the directory is not recreated at that point, and,
because the run then dies with the NameError, no directory is created
and no file is written at all. -/
theorem main_full_rebuild_delete_first (dd pd phase : String)
    (hph : phase = "train" ∨ phase = "test" ∨ phase = "dev") :
    (∃ p, (mainRun dd pd phase true).1
        = [Event.checkDirExists (phaseDir pd phase), Event.removeDir (phaseDir pd phase),
           Event.scanInput p])
    ∧ (∀ e ∈ (mainRun dd pd phase true).1, e.isMkdir = false ∧ e.isWriteFile = false) := by
  rcases hph with h | h | h <;> subst h
  · exact ⟨⟨dd ++ "/" ++ "train" ++ "_series.parquet", by simp [mainRun]⟩,
      by simp [mainRun, Event.isMkdir, Event.isWriteFile]⟩
  · exact ⟨⟨dd ++ "/" ++ "test" ++ "_series.parquet", by simp [mainRun]⟩,
      by simp [mainRun, Event.isMkdir, Event.isWriteFile]⟩
  · exact ⟨⟨pd ++ "/" ++ "dev" ++ "_series.parquet", by simp [mainRun]⟩,
      by simp [mainRun, Event.isMkdir, Event.isWriteFile]⟩

/-- Witness for the amended C9 at phase dev. -/
theorem main_full_rebuild_delete_first_witness :
    ("dev" = "train" ∨ "dev" = "test" ∨ "dev" = "dev")
    ∧ ((∃ p, (mainRun "data" "proc" "dev" true).1
          = [Event.checkDirExists (phaseDir "proc" "dev"),
             Event.removeDir (phaseDir "proc" "dev"), Event.scanInput p])
      ∧ (∀ e ∈ (mainRun "data" "proc" "dev" true).1,
          e.isMkdir = false ∧ e.isWriteFile = false)) :=
  ⟨Or.inr (Or.inr rfl),
   main_full_rebuild_delete_first "data" "proc" "dev" (Or.inr (Or.inr rfl))⟩
